import Mathlib

/-!
Verification of the hotel front-office planning system (`planning.py`).

The development shallowly embeds the core of the system:
  * the workforce model (`Employee`, its `__post_init__` contract normalisation
    and the derived `jours_travail_max_semaine` attribute),
  * the requirements engine (`calculer_besoins_personnel`),
  * the feasibility checker (`verifier_faisabilite_planning`),
  * the solver's constraint set (`_ajouter_contraintes`), modelled as a
    predicate on binary assignments keyed, as in the source, by first name,
  * the validator and analyzer (`analyser_planning`, `_verifier_violations`).

Machine integers of the source are embedded as `Int`; counts of list
comprehensions as `Nat` lengths.  Shift and day names are the string literals
of the source.
-/

namespace HotelPlanning

/-- The `Employee` dataclass of the source (fields in source order; the
`competences` and `contraintes_speciales` payloads are kept but are not
constraint-relevant). -/
structure Employee where
  prenom : String
  nom : String
  type_contrat : String
  jours_semaine : Int
  role : String
  contraintes_speciales : List (String × String)
  competences : List String
  disponible : Bool
  motif_indisponibilite : String
  jours_absence : Int
  jours_off_consecutifs : Option Bool
deriving DecidableEq

/-- The `__post_init__` hook of `Employee`: `jours_semaine` is overwritten
from the contract type. -/
def postInit (e : Employee) : Employee :=
  if e.type_contrat = "temps_plein" then { e with jours_semaine := 5 }
  else if e.type_contrat = "mi_temps_4j" then { e with jours_semaine := 4 }
  else if e.type_contrat = "mi_temps_3j" then { e with jours_semaine := 3 }
  else if e.type_contrat = "nuit" then { e with jours_semaine := 5 }
  else e

/-- The derived property `Employee.jours_travail_max_semaine`. -/
def Employee.jours_travail_max_semaine (e : Employee) : Int :=
  if e.disponible = false then 0
  else if 7 ≤ e.jours_absence then 0
  else max 0 (e.jours_semaine - e.jours_absence)

/-- The class constant `clients_per_receptionist`. -/
def clientsParReceptionniste : Int := 50

/-- The class constant `max_receptionists_per_shift`. -/
def maxReceptionistsParShift : Int := 4

/-- The class constant `nb_night_receptionists_required`. -/
def nbNightReceptionistsRequired : Int := 2

/-- The fixed 7-day week (`HotelPlanningSystem.jours_semaine`). -/
def joursSemaine : List String :=
  ["Lundi", "Mardi", "Mercredi", "Jeudi", "Vendredi", "Samedi", "Dimanche"]

/-- The fixed ordered triple of shifts iterated everywhere in the source. -/
def shiftsListe : List String := ["matin", "apres_midi", "nuit"]

/-- Requirement record for a day shift (`matin` / `apres_midi`). -/
structure BesoinShift where
  total_personnel : Int
  min_superviseurs : Int
  concierge : Int
deriving DecidableEq

/-- Requirement record for the night shift. -/
structure BesoinNuit where
  receptionists : Int
  superviseurs : Int
  concierge : Int
deriving DecidableEq

/-- The per-day requirement row produced by `calculer_besoins_personnel`. -/
structure BesoinJour where
  matin : BesoinShift
  apres_midi : BesoinShift
  nuit : BesoinNuit
deriving DecidableEq

/-- The body of the per-day loop of `calculer_besoins_personnel`.  Forecast
maps are partial (`Option Int`); a missing day is read as `0`, mirroring
`checkins.get(jour, 0)`.  `np.ceil(a / 50)` on integers is `(a + 49).fdiv 50`
(floor division of `a + 49`). -/
def calculerBesoinsJour (employees : List Employee)
    (checkins checkouts : String → Option Int) (jour : String) : BesoinJour :=
  let nb_checkins := (checkins jour).getD 0
  let nb_checkouts := (checkouts jour).getD 0
  let besoin_total_matin := max 1 ((nb_checkouts + (clientsParReceptionniste - 1)).fdiv clientsParReceptionniste)
  let besoin_total_apres_midi := max 1 ((nb_checkins + (clientsParReceptionniste - 1)).fdiv clientsParReceptionniste)
  let max_personnel_disponible := maxReceptionistsParShift
  let max_personnel_disponible :=
    if jour ∉ (["Samedi", "Dimanche"] : List String) then max_personnel_disponible - 1
    else max_personnel_disponible
  let besoin_total_matin := min besoin_total_matin max_personnel_disponible
  let besoin_total_apres_midi := min besoin_total_apres_midi max_personnel_disponible
  let total_activite := nb_checkins + nb_checkouts
  let besoin_total_matin :=
    if total_activite < 100 then max 1 (besoin_total_matin - 1) else besoin_total_matin
  let besoin_total_apres_midi :=
    if total_activite < 100 then max 1 (besoin_total_apres_midi - 1) else besoin_total_apres_midi
  { matin :=
      { total_personnel := besoin_total_matin
        min_superviseurs := 1
        concierge := if jour ∉ (["Samedi", "Dimanche"] : List String) then 1 else 0 }
    apres_midi :=
      { total_personnel := besoin_total_apres_midi
        min_superviseurs := 1
        concierge := 0 }
    nuit :=
      { receptionists :=
          min nbNightReceptionistsRequired
            ((employees.filter (fun e =>
                e.role == "receptionniste" && e.type_contrat == "nuit" && e.disponible)).length : Int)
        superviseurs := 0
        concierge := 0 } }

/-- The map `calculer_besoins_personnel`: requirement rows for all 7 days. -/
def calculer_besoins_personnel (employees : List Employee)
    (checkins checkouts : String → Option Int) : List (String × BesoinJour) :=
  joursSemaine.map (fun jour => (jour, calculerBesoinsJour employees checkins checkouts jour))

/-- The filter `get_employees_disponibles`. -/
def employesDisponibles (employees : List Employee) : List Employee :=
  employees.filter (fun e => e.disponible)

/-- Available supervisors pool (`superviseurs_dispo`). -/
def superviseursDispo (employees : List Employee) : List Employee :=
  (employesDisponibles employees).filter (fun e => e.role == "superviseur")

/-- Available day receptionists pool (`receptionnistes_jour_dispo`). -/
def receptionnistesJourDispo (employees : List Employee) : List Employee :=
  (employesDisponibles employees).filter
    (fun e => e.role == "receptionniste" && e.type_contrat != "nuit")

/-- Available night receptionists pool (`receptionnistes_nuit_dispo`). -/
def receptionnistesNuitDispo (employees : List Employee) : List Employee :=
  (employesDisponibles employees).filter
    (fun e => e.role == "receptionniste" && e.type_contrat == "nuit")

/-- Available concierges pool (`concierges_dispo`). -/
def conciergesDispo (employees : List Employee) : List Employee :=
  (employesDisponibles employees).filter (fun e => e.role == "concierge")

/-- The `stats` block of `verifier_faisabilite_planning`. -/
structure FaisabiliteStats where
  total_disponibles : Nat
  superviseurs : Nat
  receptionnistes_jour : Nat
  receptionnistes_nuit : Nat
  concierges : Nat
deriving DecidableEq

/-- The result record of `verifier_faisabilite_planning`. -/
structure Faisabilite where
  faisable : Bool
  problemes : List String
  recommandations : List String
  stats : FaisabiliteStats
deriving DecidableEq

/-- The checker `verifier_faisabilite_planning`: blocking problems vs advisory
recommendations, with `faisable` true exactly when the problem list is
empty. -/
def verifier_faisabilite_planning (employees : List Employee) : Faisabilite :=
  let problemes :=
    (if (superviseursDispo employees).length < 1 then
        ["❌ CRITIQUE: Aucun superviseur disponible"]
      else [])
    ++ (if (receptionnistesNuitDispo employees).length < 2 then
          (if (receptionnistesNuitDispo employees).length = 0 then
              ["❌ CRITIQUE: Aucun réceptionniste de nuit disponible"]
            else ["❌ CRITIQUE: Un seul réceptionniste de nuit disponible (2 requis)"])
        else [])
    ++ (if (superviseursDispo employees).length + (receptionnistesJourDispo employees).length < 3 then
          ["❌ Personnel jour insuffisant (minimum 3 pour couvrir les shifts)"]
        else [])
  let recommandations :=
    (if 1 ≤ (superviseursDispo employees).length ∧ (superviseursDispo employees).length < 2 then
        ["⚠️ Un seul superviseur disponible - couverture limitée"]
      else [])
    ++ (if (conciergesDispo employees).length = 0 then
          ["⚠️ Concierge indisponible - service limité en semaine"]
        else [])
  { faisable := problemes.isEmpty
    problemes := problemes
    recommandations := recommandations
    stats :=
      { total_disponibles := (employesDisponibles employees).length
        superviseurs := (superviseursDispo employees).length
        receptionnistes_jour := (receptionnistesJourDispo employees).length
        receptionnistes_nuit := (receptionnistesNuitDispo employees).length
        concierges := (conciergesDispo employees).length } }

/-- Linear sum of an integer-valued function over a list (the `lpSum` of the
source). -/
def sumOver {α : Type} (l : List α) (f : α → Int) : Int :=
  (l.map f).sum

/-- The pool `personnel_jour_disponible = superviseurs + receptionnistes_jour`. -/
def personnelJourDisponible (employees : List Employee) : List Employee :=
  superviseursDispo employees ++ receptionnistesJourDispo employees

/-- Selector for the `total_personnel` field of a day shift of a requirement
row. -/
def besoinTotalPersonnel (b : BesoinJour) (shift : String) : Int :=
  if shift = "matin" then b.matin.total_personnel else b.apres_midi.total_personnel

/-- The constraint set built by `_ajouter_contraintes` over the binary
decision variables `x[prenom][jour][shift]`.  An assignment is a function on
first names (the source keys its variable table by `emp.prenom` alone), and a
conjunct is generated for each `prob +=` statement of the source, quantified
exactly as the enclosing Python loops are. -/
def contraintesSatisfaites (employees : List Employee)
    (besoins : String → BesoinJour) (x : String → String → String → Int) : Prop :=
  -- Binary decision variables
  (∀ p j s, x p j s = 0 ∨ x p j s = 1)
  -- unavailable employees are forced to 0
  ∧ (∀ e ∈ employees, e.disponible = false →
      ∀ j ∈ joursSemaine, ∀ s ∈ shiftsListe, x e.prenom j s = 0)
  -- coverage constraints per (day, shift)
  ∧ (∀ j ∈ joursSemaine,
      -- night shift
      ((0 < min (besoins j).nuit.receptionists ((receptionnistesNuitDispo employees).length : Int) →
          sumOver (receptionnistesNuitDispo employees) (fun e => x e.prenom j "nuit")
            = min (besoins j).nuit.receptionists ((receptionnistesNuitDispo employees).length : Int))
        ∧ (∀ e ∈ employesDisponibles employees, e ∉ receptionnistesNuitDispo employees →
            x e.prenom j "nuit" = 0))
      -- day shifts
      ∧ (∀ s ∈ (["matin", "apres_midi"] : List String),
          (superviseursDispo employees ≠ [] →
            1 ≤ sumOver (superviseursDispo employees) (fun e => x e.prenom j s))
          ∧ (0 < min (besoinTotalPersonnel (besoins j) s)
                  ((personnelJourDisponible employees).length : Int) →
              min (besoinTotalPersonnel (besoins j) s)
                  ((personnelJourDisponible employees).length : Int)
                ≤ sumOver (receptionnistesJourDispo employees) (fun e => x e.prenom j s)
                  + sumOver (superviseursDispo employees) (fun e => x e.prenom j s))
          ∧ (if j ∉ (["Samedi", "Dimanche"] : List String) ∧ s = "matin"
                ∧ conciergesDispo employees ≠ [] then
              sumOver (conciergesDispo employees) (fun e => x e.prenom j s) = 1
            else ∀ c ∈ conciergesDispo employees, x c.prenom j s = 0)
          ∧ (personnelJourDisponible employees ++ conciergesDispo employees ≠ [] →
              sumOver (personnelJourDisponible employees ++ conciergesDispo employees)
                  (fun e => x e.prenom j s)
                ≤ maxReceptionistsParShift)))
  -- per-employee constraints, available employees only
  ∧ (∀ e ∈ employesDisponibles employees,
      (∀ j ∈ joursSemaine, sumOver shiftsListe (fun s => x e.prenom j s) ≤ 1)
      ∧ sumOver joursSemaine (fun j => sumOver shiftsListe (fun s => x e.prenom j s))
          ≤ e.jours_travail_max_semaine
      ∧ (∀ i, i < joursSemaine.length - 5 →
          sumOver ((joursSemaine.drop i).take 6)
              (fun j => sumOver shiftsListe (fun s => x e.prenom j s)) ≤ 5)
      ∧ (e.role = "concierge" →
          ∀ j ∈ joursSemaine,
            x e.prenom j "nuit" = 0 ∧ x e.prenom j "apres_midi" = 0
            ∧ (j ∈ (["Samedi", "Dimanche"] : List String) → x e.prenom j "matin" = 0)))

-- ================================
-- VALIDATOR AND ANALYZER
-- ================================

/-- One row of a schedule cell (`_extraire_planning` records the first name,
last name, role and contract type of each assigned employee). -/
structure PlanningEntry where
  prenom : String
  nom : String
  role : String
  type_contrat : String
deriving DecidableEq

/-- A produced schedule: `planning[jour][shift]` is the list of assigned
entries. -/
def Planning : Type := String → String → List PlanningEntry

/-- Whether anyone assigned to the cell shares the first name (the `any`
generator over `planning[jour][shift]`). -/
def shiftTravaille (planning : Planning) (prenom jour shift : String) : Bool :=
  (planning jour shift).any (fun e => e.prenom == prenom)

/-- Whether the employee named `prenom` works at least one shift on `jour`. -/
def jourTravaille (planning : Planning) (prenom jour : String) : Bool :=
  shiftsListe.any (fun s => shiftTravaille planning prenom jour s)

/-- Count `jours_travailles`: distinct worked days over the fixed week. -/
def joursTravailles (planning : Planning) (prenom : String) : Nat :=
  (joursSemaine.filter (fun jour => jourTravaille planning prenom jour)).length

/-- Hours worked: 8 per matched (day, shift) pair. -/
def heuresEmploye (planning : Planning) (prenom : String) : Nat :=
  8 * (joursSemaine.map (fun jour =>
        (shiftsListe.filter (fun s => shiftTravaille planning prenom jour s)).length)).sum

/-- The per-employee record of `analyse['heures_par_employe']`. -/
structure AnalyseEmploye where
  heures : Nat
  jours_travailles : Nat
  jours_contractuels : Int
  respect_contrat : Bool
  role : String
  type_contrat : String
deriving DecidableEq

/-- The per-employee block of `analyser_planning`. -/
def analyseEmploye (planning : Planning) (emp : Employee) : AnalyseEmploye :=
  { heures := heuresEmploye planning emp.prenom
    jours_travailles := joursTravailles planning emp.prenom
    jours_contractuels := emp.jours_semaine
    respect_contrat := decide ((joursTravailles planning emp.prenom : Int) ≤ emp.jours_semaine)
    role := emp.role
    type_contrat := emp.type_contrat }

/-- The `heures_par_employe` table of `analyser_planning`, keyed by full
name. -/
def analyser_planning (employees : List Employee) (planning : Planning) :
    List (String × AnalyseEmploye) :=
  employees.map (fun emp => (emp.prenom ++ " " ++ emp.nom, analyseEmploye planning emp))

/-- A structural rendering of each violation string appended by
`_verifier_violations` (constructor per `violations.append` site, carrying the
interpolated data). -/
inductive Violation where
  | superviseurManquant (jour shift : String) (trouve : Nat)
  | conciergeObligatoire (jour shift : String) (trouve : Nat)
  | conciergeInterditApresMidi (jour shift : String)
  | conciergeInterditWeekend (jour shift : String)
  | maxPersonnes (jour shift : String) (trouve : Nat)
  | minPersonne (jour shift : String) (trouve : Nat)
  | nuitReceptionnistes (jour : String) (trouve : Nat)
  | nuitSuperviseur (jour : String)
  | nuitConcierge (jour : String)
  | contratDepasse (prenom nom : String) (jours : Nat) (maxJours : Int)
deriving DecidableEq

/-- Day-shift checks of `_verifier_violations` for one (day, shift) cell. -/
def verifJourShift (jour shift : String) (equipe : List PlanningEntry) : List Violation :=
  let nb_superviseurs := (equipe.filter (fun e => e.role == "superviseur")).length
  let nb_concierges := (equipe.filter (fun e => e.role == "concierge")).length
  (if nb_superviseurs < 1 then [Violation.superviseurManquant jour shift nb_superviseurs] else [])
  ++ (if jour ∉ (["Samedi", "Dimanche"] : List String) then
        (if shift = "matin" ∧ nb_concierges ≠ 1 then
           [Violation.conciergeObligatoire jour shift nb_concierges]
         else if shift = "apres_midi" ∧ 0 < nb_concierges then
           [Violation.conciergeInterditApresMidi jour shift]
         else [])
      else
        (if 0 < nb_concierges then [Violation.conciergeInterditWeekend jour shift] else []))
  ++ (if maxReceptionistsParShift < (equipe.length : Int) then
        [Violation.maxPersonnes jour shift equipe.length]
      else [])
  ++ (if equipe.length < 1 then [Violation.minPersonne jour shift equipe.length] else [])

/-- Night checks of `_verifier_violations` for one day. -/
def verifNuit (jour : String) (equipe : List PlanningEntry) : List Violation :=
  let nb_receptionists := (equipe.filter (fun e => e.role == "receptionniste")).length
  let nb_superviseurs := (equipe.filter (fun e => e.role == "superviseur")).length
  let nb_concierges := (equipe.filter (fun e => e.role == "concierge")).length
  (if (nb_receptionists : Int) ≠ nbNightReceptionistsRequired then
      [Violation.nuitReceptionnistes jour nb_receptionists]
    else [])
  ++ (if 0 < nb_superviseurs then [Violation.nuitSuperviseur jour] else [])
  ++ (if 0 < nb_concierges then [Violation.nuitConcierge jour] else [])

/-- Per-employee contract check of `_verifier_violations`. -/
def verifContrat (emp : Employee) (planning : Planning) : List Violation :=
  if emp.jours_semaine < (joursTravailles planning emp.prenom : Int) then
    [Violation.contratDepasse emp.prenom emp.nom
      (joursTravailles planning emp.prenom) emp.jours_semaine]
  else []

/-- The validator `_verifier_violations`: all checks over the week, then over
employees. -/
def verifier_violations (employees : List Employee) (planning : Planning) : List Violation :=
  (joursSemaine.flatMap (fun jour =>
      ((["matin", "apres_midi"] : List String).flatMap
          (fun shift => verifJourShift jour shift (planning jour shift)))
      ++ verifNuit jour (planning jour "nuit")))
  ++ employees.flatMap (fun emp => verifContrat emp planning)

-- ================================
-- HELPER LEMMAS
-- ================================

/-- Replacing one roster element by another on which a predicate agrees leaves
the filtered length unchanged. -/
lemma length_filter_update (pre post : List Employee) (e e2 : Employee)
    (p : Employee → Bool) (hp : p e2 = p e) :
    ((pre ++ e2 :: post).filter p).length = ((pre ++ e :: post).filter p).length := by
  simp only [List.filter_append, List.filter_cons, hp, List.length_append]
  cases h : p e <;> simp [h]

/-- Projection of the stats block of the feasibility checker. -/
lemma faisabilite_stats (employees : List Employee) :
    (verifier_faisabilite_planning employees).stats
      = { total_disponibles := (employesDisponibles employees).length
          superviseurs := (superviseursDispo employees).length
          receptionnistes_jour := (receptionnistesJourDispo employees).length
          receptionnistes_nuit := (receptionnistesNuitDispo employees).length
          concierges := (conciergesDispo employees).length } := rfl

-- ================================
-- CLAIM THEOREMS
-- ================================

/-- C8: for every `Employee`, the derived `jours_travail_max_semaine` is `0`
when `disponible` is false or `jours_absence ≥ 7`, and otherwise
`max(0, jours_semaine − jours_absence)`. -/
theorem jours_travail_max_correct (e : Employee) :
    e.jours_travail_max_semaine
      = if e.disponible = false ∨ 7 ≤ e.jours_absence then 0
        else max 0 (e.jours_semaine - e.jours_absence) := by
  unfold Employee.jours_travail_max_semaine
  cases h : e.disponible <;> by_cases h7 : 7 ≤ e.jours_absence <;> simp [h, h7]

/-- C4: `verifier_faisabilite_planning` reports `faisable = false` exactly when
a blocking condition holds — zero available supervisors, fewer than two
available night receptionists, or fewer than three available day-capable staff
(supervisors plus non-night receptionists); the advisory conditions (exactly
one supervisor, zero concierges) are surfaced only as recommendations. -/
theorem faisabilite_blocages (employees : List Employee) :
    ((verifier_faisabilite_planning employees).faisable = false ↔
      ((superviseursDispo employees).length = 0
        ∨ (receptionnistesNuitDispo employees).length < 2
        ∨ (superviseursDispo employees).length + (receptionnistesJourDispo employees).length < 3))
    ∧ ((superviseursDispo employees).length = 1 →
        "⚠️ Un seul superviseur disponible - couverture limitée"
          ∈ (verifier_faisabilite_planning employees).recommandations)
    ∧ ((conciergesDispo employees).length = 0 →
        "⚠️ Concierge indisponible - service limité en semaine"
          ∈ (verifier_faisabilite_planning employees).recommandations) := by
  refine ⟨?_, ?_, ?_⟩
  · simp only [verifier_faisabilite_planning]
    split_ifs <;> simp_all
  · intro h1
    simp only [verifier_faisabilite_planning]
    split_ifs <;> simp_all
  · intro h1
    simp only [verifier_faisabilite_planning]
    split_ifs <;> simp_all

/-- C10: replacing an employee's `jours_absence` by a smaller value never
decreases their `jours_travail_max_semaine`, and leaves every available-pool
count of the feasibility checker unchanged (hence never decreases them). -/
theorem monotonicite_pools (pre post : List Employee) (e : Employee) (a2 : Int)
    (h : a2 ≤ e.jours_absence) :
    e.jours_travail_max_semaine
        ≤ ({ e with jours_absence := a2 } : Employee).jours_travail_max_semaine
    ∧ (verifier_faisabilite_planning (pre ++ e :: post)).stats.superviseurs
        ≤ (verifier_faisabilite_planning (pre ++ { e with jours_absence := a2 } :: post)).stats.superviseurs
    ∧ (verifier_faisabilite_planning (pre ++ e :: post)).stats.receptionnistes_jour
        ≤ (verifier_faisabilite_planning (pre ++ { e with jours_absence := a2 } :: post)).stats.receptionnistes_jour
    ∧ (verifier_faisabilite_planning (pre ++ e :: post)).stats.receptionnistes_nuit
        ≤ (verifier_faisabilite_planning (pre ++ { e with jours_absence := a2 } :: post)).stats.receptionnistes_nuit
    ∧ (verifier_faisabilite_planning (pre ++ e :: post)).stats.concierges
        ≤ (verifier_faisabilite_planning (pre ++ { e with jours_absence := a2 } :: post)).stats.concierges := by
  refine ⟨?_, ?_, ?_, ?_, ?_⟩
  · unfold Employee.jours_travail_max_semaine
    split_ifs <;> simp_all <;> omega
  all_goals
    simp only [faisabilite_stats, superviseursDispo, receptionnistesJourDispo,
      receptionnistesNuitDispo, conciergesDispo, employesDisponibles, List.filter_filter]
    refine le_of_eq (length_filter_update pre post e { e with jours_absence := a2 } _ ?_).symm
    rfl

/-- Spec-side ceiling division on natural counts (`ceil(a / b)`). -/
def specCeilDiv (a b : Nat) : Nat := (a + b - 1) / b

/-- Definition following the spec's §4.1 wording, for comparison with
`calculerBesoinsJour`: a shift total is `max(1, ceil(guests / 50))`, capped by
the shift capacity (4 on Saturday/Sunday, 3 on weekdays), with low-occupancy
relief subtracting 1 (floored at 1) when the day's combined activity is below
100. -/
def specShiftTotal (jour : String) (invites autres : Nat) : Nat :=
  let base := max 1 (specCeilDiv invites 50)
  let cap : Nat := if jour = "Samedi" ∨ jour = "Dimanche" then 4 else 3
  let plafonne := min base cap
  if invites + autres < 100 then max 1 (plafonne - 1) else plafonne

/-- Floor division of a cast natural by 50 is the natural division. -/
lemma fdiv_cast50 (a : Nat) : ((a : Int)).fdiv 50 = ((a / 50 : Nat) : Int) := by
  rw [Int.fdiv_eq_ediv _ (by omega)]
  omega

/-- Normalisation of the `+ (50 - 1)` offset of the ceiling trick. -/
lemma plus49_cast (n : Nat) : ((n : Int) + (50 - 1)) = ((n + 49 : Nat) : Int) := by
  push_cast
  ring

/-- C3: for every day of the week and all non-negative forecast counts, the
requirement engine's morning total is the spec's `max(1, ceil(checkouts/50))`
capped at 4 on weekends and 3 on weekdays then reduced by the low-occupancy
relief, and symmetrically for the afternoon total from the check-ins; in
particular a zero-activity weekday yields totals of 1 and a 300/300 Saturday
yields totals of 4. -/
theorem besoins_totaux_raffinement (es : List Employee) (ci co : String → Nat)
    (jour : String) (hj : jour ∈ joursSemaine) :
    ((calculerBesoinsJour es (fun j => some ((ci j : Nat) : Int))
        (fun j => some ((co j : Nat) : Int)) jour).matin.total_personnel
      = ((specShiftTotal jour (co jour) (ci jour) : Nat) : Int))
    ∧ ((calculerBesoinsJour es (fun j => some ((ci j : Nat) : Int))
        (fun j => some ((co j : Nat) : Int)) jour).apres_midi.total_personnel
      = ((specShiftTotal jour (ci jour) (co jour) : Nat) : Int))
    ∧ (calculerBesoinsJour [] (fun _ => some 0) (fun _ => some 0) "Lundi").matin.total_personnel = 1
    ∧ (calculerBesoinsJour [] (fun _ => some 0) (fun _ => some 0) "Lundi").apres_midi.total_personnel = 1
    ∧ (calculerBesoinsJour [] (fun _ => some 300) (fun _ => some 300) "Samedi").matin.total_personnel = 4
    ∧ (calculerBesoinsJour [] (fun _ => some 300) (fun _ => some 300) "Samedi").apres_midi.total_personnel = 4 := by
  refine ⟨?_, ?_, by decide, by decide, by decide, by decide⟩ <;>
  · fin_cases hj <;>
    · simp only [calculerBesoinsJour, specShiftTotal, specCeilDiv, clientsParReceptionniste,
        maxReceptionistsParShift, Option.getD_some, plus49_cast, fdiv_cast50]
      simp only [List.mem_cons, List.mem_singleton, List.not_mem_nil, or_false,
        String.reduceEq, not_false_eq_true, and_self, not_or, not_true, not_false_iff,
        or_true, true_or, false_or,
        false_and, and_false, true_and, and_true, ite_true, ite_false, if_true, if_false]
      split_ifs <;> push_cast <;> omega

/-- C3 witness: the refinement instantiated on Wednesday with 120 check-ins
and 60 check-outs. -/
theorem besoins_totaux_raffinement_temoin :
    (calculerBesoinsJour [] (fun _ => some ((120 : Nat) : Int))
        (fun _ => some ((60 : Nat) : Int)) "Mercredi").matin.total_personnel
      = ((specShiftTotal "Mercredi" 60 120 : Nat) : Int) :=
  (besoins_totaux_raffinement [] (fun _ => 120) (fun _ => 60) "Mercredi"
    (by decide)).1

/-- A concrete available supervisor used in witness instantiations. -/
def supTemoin : Employee :=
  { prenom := "Sup1"
    nom := "Man1"
    type_contrat := "temps_plein"
    jours_semaine := 5
    role := "superviseur"
    contraintes_speciales := []
    competences := []
    disponible := true
    motif_indisponibilite := ""
    jours_absence := 0
    jours_off_consecutifs := none }

/-- C4 witness: a roster with exactly one available supervisor and no
concierge triggers both advisory recommendations. -/
theorem faisabilite_blocages_temoin :
    "⚠️ Un seul superviseur disponible - couverture limitée"
      ∈ (verifier_faisabilite_planning [supTemoin]).recommandations
    ∧ "⚠️ Concierge indisponible - service limité en semaine"
      ∈ (verifier_faisabilite_planning [supTemoin]).recommandations :=
  ⟨(faisabilite_blocages [supTemoin]).2.1 (by decide),
   (faisabilite_blocages [supTemoin]).2.2 (by decide)⟩

/-- C10 witness: lowering the absence days of a supervisor with 3 absence days
to 1 keeps the available supervisor count. -/
theorem monotonicite_pools_temoin :
    (1 : Int) ≤ ({ supTemoin with jours_absence := 3 } : Employee).jours_absence
    ∧ (verifier_faisabilite_planning [{ supTemoin with jours_absence := 3 }]).stats.superviseurs
        ≤ (verifier_faisabilite_planning
            [{ ({ supTemoin with jours_absence := 3 } : Employee) with jours_absence := 1 }]).stats.superviseurs :=
  ⟨by decide,
   (monotonicite_pools [] [] { supTemoin with jours_absence := 3 } 1 (by decide)).2.1⟩

/-- The requirement engine's night-receptionist filter equals the solver's
night pool (same predicate, conjuncts reassociated). -/
lemma nuit_filter_eq (es : List Employee) :
    es.filter (fun e => e.role == "receptionniste" && e.type_contrat == "nuit" && e.disponible)
      = receptionnistesNuitDispo es := by
  unfold receptionnistesNuitDispo employesDisponibles
  rw [List.filter_filter]

/-- The computed night requirement is `min 2 (available night receptionists)`. -/
lemma besoins_nuit_eq (es : List Employee) (ci co : String → Option Int) (jour : String) :
    (calculerBesoinsJour es ci co jour).nuit.receptionists
      = min 2 (((receptionnistesNuitDispo es).length : Nat) : Int) := by
  simp only [calculerBesoinsJour, nbNightReceptionistsRequired, nuit_filter_eq]

/-- A sum over a list of zeros is zero. -/
lemma sumOver_eq_zero {α : Type} (l : List α) (f : α → Int)
    (h : ∀ a ∈ l, f a = 0) : sumOver l f = 0 := by
  induction l with
  | nil => rfl
  | cons a t ih =>
    simp only [sumOver, List.map_cons, List.sum_cons] at ih ⊢
    rw [h a (by simp), ih fun b hb => h b (by simp [hb])]
    ring

/-- Membership in the night pool, spelt out. -/
lemma mem_receptionnistesNuitDispo (es : List Employee) (e : Employee) :
    e ∈ receptionnistesNuitDispo es
      ↔ e ∈ es ∧ e.role = "receptionniste" ∧ e.type_contrat = "nuit" ∧ e.disponible = true := by
  simp [receptionnistesNuitDispo, employesDisponibles, List.mem_filter, and_assoc]

/-- C5: the night requirement is `min 2 (available night receptionists)`; the
constraint set forces the night variable of every employee who is not an
available night-contract receptionist to 0, and, when night receptionists are
available, forces the sum of the pool's night variables to equal the
requirement exactly. -/
theorem nuit_exclusivite (es : List Employee) (ci co : String → Option Int)
    (x : String → String → String → Int)
    (hx : contraintesSatisfaites es (fun j => calculerBesoinsJour es ci co j) x)
    (jour : String) (hj : jour ∈ joursSemaine) :
    (calculerBesoinsJour es ci co jour).nuit.receptionists
        = min 2 (((receptionnistesNuitDispo es).length : Nat) : Int)
    ∧ (∀ e ∈ es, ¬(e.role = "receptionniste" ∧ e.type_contrat = "nuit" ∧ e.disponible = true) →
        x e.prenom jour "nuit" = 0)
    ∧ (0 < (receptionnistesNuitDispo es).length →
        sumOver (receptionnistesNuitDispo es) (fun e => x e.prenom jour "nuit")
          = min 2 (((receptionnistesNuitDispo es).length : Nat) : Int)) := by
  obtain ⟨hbin, hindispo, hcouv, hemp⟩ := hx
  refine ⟨besoins_nuit_eq es ci co jour, ?_, ?_⟩
  · intro e he hne
    by_cases hd : e.disponible = true
    · have hmem : e ∈ employesDisponibles es :=
        List.mem_filter.mpr ⟨he, by simp [hd]⟩
      have hnot : e ∉ receptionnistesNuitDispo es := by
        intro hcontra
        obtain ⟨-, h1, h2, h3⟩ := (mem_receptionnistesNuitDispo es e).mp hcontra
        exact hne ⟨h1, h2, h3⟩
      exact ((hcouv jour hj).1).2 e hmem hnot
    · exact hindispo e he (by simpa using hd) jour hj "nuit" (by decide)
  · intro hlen
    have h1 := ((hcouv jour hj).1).1
    rw [besoins_nuit_eq es ci co jour, min_assoc, min_self] at h1
    exact h1 (by omega)

/-- A roster in which nobody is available yields an empty availability pool. -/
lemma employesDisponibles_vide (es : List Employee)
    (hnd : ∀ e ∈ es, e.disponible = false) : employesDisponibles es = [] := by
  rw [employesDisponibles, List.filter_eq_nil_iff]
  intro e he
  simp [hnd e he]

/-- The zero assignment satisfies the constraint set of any roster with no
available employee (every coverage conjunct is vacuous). -/
lemma contraintes_triviales (es : List Employee)
    (hnd : ∀ e ∈ es, e.disponible = false) (besoins : String → BesoinJour) :
    contraintesSatisfaites es besoins (fun _ _ _ => 0) := by
  have hdisp := employesDisponibles_vide es hnd
  have hsup : superviseursDispo es = [] := by simp [superviseursDispo, hdisp]
  have hrj : receptionnistesJourDispo es = [] := by simp [receptionnistesJourDispo, hdisp]
  have hrn : receptionnistesNuitDispo es = [] := by simp [receptionnistesNuitDispo, hdisp]
  have hc : conciergesDispo es = [] := by simp [conciergesDispo, hdisp]
  refine ⟨fun p j s => Or.inl rfl, fun e he hd j hj s hs => rfl, ?_, ?_⟩
  · intro j hj
    refine ⟨⟨?_, ?_⟩, ?_⟩
    · intro hpos
      rw [hrn] at hpos
      simp only [List.length_nil, Nat.cast_zero] at hpos
      omega
    · intro e he
      rw [hdisp] at he
      simp at he
    · intro s hs
      refine ⟨fun hne => absurd hsup hne, ?_, ?_, ?_⟩
      · intro hpos
        rw [personnelJourDisponible, hsup, hrj] at hpos
        simp only [List.append_nil, List.length_nil, Nat.cast_zero] at hpos
        omega
      · have hcond : ¬(j ∉ (["Samedi", "Dimanche"] : List String) ∧ s = "matin"
            ∧ conciergesDispo es ≠ []) := by simp [hc]
        rw [if_neg hcond]
        intro c hc2
        rw [hc] at hc2
      · intro hne
        rw [personnelJourDisponible, hsup, hrj, hc] at hne
        simp at hne
  · intro e he
    rw [hdisp] at he
    simp at he

/-- A concrete unavailable night receptionist, for witness instantiations. -/
def nuitIndispoTemoin : Employee :=
  { prenom := "Night1"
    nom := "Nuit1"
    type_contrat := "nuit"
    jours_semaine := 5
    role := "receptionniste"
    contraintes_speciales := [("horaires", "nuit")]
    competences := []
    disponible := false
    motif_indisponibilite := "Maladie"
    jours_absence := 7
    jours_off_consecutifs := none }

/-- C5 witness: the exclusivity theorem instantiated on a one-person roster
whose only night receptionist is unavailable, with the zero assignment. -/
theorem nuit_exclusivite_temoin :
    (calculerBesoinsJour [nuitIndispoTemoin] (fun _ => none) (fun _ => none) "Lundi").nuit.receptionists
      = min 2 (((receptionnistesNuitDispo [nuitIndispoTemoin]).length : Nat) : Int) :=
  (nuit_exclusivite [nuitIndispoTemoin] (fun _ => none) (fun _ => none) (fun _ _ _ => 0)
    (contraintes_triviales [nuitIndispoTemoin]
      (fun e he => by rw [List.mem_singleton] at he; subst he; rfl)
      (fun j => calculerBesoinsJour [nuitIndispoTemoin] (fun _ => none) (fun _ => none) j))
    "Lundi" (by decide)).1

/-- Whether an assignment gives the employee named `p` any shift on day `j`. -/
def travailleLeJour (x : String → String → String → Int) (p j : String) : Bool :=
  shiftsListe.any (fun s => x p j s != 0)

/-- Number of worked days of the employee named `p` within a window of
days. -/
def joursTravaillesFenetre (x : String → String → String → Int) (p : String)
    (l : List String) : Nat :=
  (l.filter (fun j => travailleLeJour x p j)).length

/-- For a binary assignment, the number of worked days in a window is at most
the window's total of shift variables. -/
lemma jours_le_somme (x : String → String → String → Int) (p : String)
    (hbin : ∀ q j s, x q j s = 0 ∨ x q j s = 1) (l : List String) :
    ((joursTravaillesFenetre x p l : Nat) : Int)
      ≤ sumOver l (fun j => sumOver shiftsListe (fun s => x p j s)) := by
  induction l with
  | nil => simp [joursTravaillesFenetre, sumOver]
  | cons j t ih =>
    obtain ⟨m1, m2⟩ : 0 ≤ x p j "matin" ∧ x p j "matin" ≤ 1 := by
      rcases hbin p j "matin" with h | h <;> simp [h]
    obtain ⟨a1, a2⟩ : 0 ≤ x p j "apres_midi" ∧ x p j "apres_midi" ≤ 1 := by
      rcases hbin p j "apres_midi" with h | h <;> simp [h]
    obtain ⟨n1, n2⟩ : 0 ≤ x p j "nuit" ∧ x p j "nuit" ≤ 1 := by
      rcases hbin p j "nuit" with h | h <;> simp [h]
    simp only [joursTravaillesFenetre, sumOver, List.map_cons, List.sum_cons,
      List.filter_cons] at ih ⊢
    rw [show (List.map (fun s => x p j s) shiftsListe).sum
        = x p j "matin" + (x p j "apres_midi" + (x p j "nuit" + 0)) from rfl]
    cases hw : travailleLeJour x p j
    · simp only [hw, Bool.false_eq_true, if_false]
      omega
    · have hge : 1 ≤ x p j "matin" + (x p j "apres_midi" + (x p j "nuit" + 0)) := by
        simp only [travailleLeJour, shiftsListe, List.any_cons, List.any_nil,
          Bool.or_eq_true, bne_iff_ne, ne_eq, Bool.or_false] at hw
        rcases hw with h | h | h <;> omega
      simp only [hw, if_true, List.length_cons]
      push_cast
      omega

/-- C6: the constraint set bounds every available employee's assigned shifts
in each 6-day sliding window of the week by 5, so any satisfying assignment
never has an employee (available or not) working more than 5 days within any
6 consecutive days of the week. -/
theorem fenetres_glissantes (es : List Employee) (besoins : String → BesoinJour)
    (x : String → String → String → Int)
    (hx : contraintesSatisfaites es besoins x)
    (emp : Employee) (hemp : emp ∈ es) (i : Nat) (hi : i + 6 ≤ joursSemaine.length) :
    (emp.disponible = true →
      sumOver ((joursSemaine.drop i).take 6)
          (fun j => sumOver shiftsListe (fun s => x emp.prenom j s)) ≤ 5)
    ∧ joursTravaillesFenetre x emp.prenom ((joursSemaine.drop i).take 6) ≤ 5 := by
  obtain ⟨hbin, hindispo, hcouv, hempl⟩ := hx
  have hlen : joursSemaine.length = 7 := rfl
  have hwin : ∀ j ∈ (joursSemaine.drop i).take 6, j ∈ joursSemaine := fun j hj =>
    ((List.take_sublist 6 (joursSemaine.drop i)).trans (List.drop_sublist i joursSemaine)).mem hj
  by_cases hd : emp.disponible = true
  · have hmem : emp ∈ employesDisponibles es := List.mem_filter.mpr ⟨hemp, by simp [hd]⟩
    have hsum := (hempl emp hmem).2.2.1 i (by omega)
    refine ⟨fun _ => hsum, ?_⟩
    have hcount := jours_le_somme x emp.prenom hbin ((joursSemaine.drop i).take 6)
    have := le_trans hcount hsum
    exact_mod_cast this
  · have hzero : ∀ j ∈ (joursSemaine.drop i).take 6, ∀ s ∈ shiftsListe,
        x emp.prenom j s = 0 := fun j hj s hs =>
      hindispo emp hemp (by simpa using hd) j (hwin j hj) s hs
    refine ⟨fun hcontra => absurd hcontra hd, ?_⟩
    have hfilter : ((joursSemaine.drop i).take 6).filter
        (fun j => travailleLeJour x emp.prenom j) = [] := by
      rw [List.filter_eq_nil_iff]
      intro j hj
      simp only [travailleLeJour, shiftsListe, List.any_cons, List.any_nil,
        Bool.or_eq_true, bne_iff_ne, ne_eq, Bool.or_false]
      push_neg
      refine ⟨?_, ?_, ?_⟩ <;> exact hzero j hj _ (by decide)
    rw [joursTravaillesFenetre, hfilter]
    simp

/-- C6 witness: the window bound instantiated on the one-person roster with
the zero assignment, first window of the week. -/
theorem fenetres_glissantes_temoin :
    joursTravaillesFenetre (fun _ _ _ => 0) nuitIndispoTemoin.prenom
      ((joursSemaine.drop 0).take 6) ≤ 5 :=
  (fenetres_glissantes [nuitIndispoTemoin]
    (fun j => calculerBesoinsJour [nuitIndispoTemoin] (fun _ => none) (fun _ => none) j)
    (fun _ _ _ => 0)
    (contraintes_triviales [nuitIndispoTemoin]
      (fun e he => by rw [List.mem_singleton] at he; subst he; rfl)
      (fun j => calculerBesoinsJour [nuitIndispoTemoin] (fun _ => none) (fun _ => none) j))
    nuitIndispoTemoin (by simp) 0 (by decide)).2

/-- A violation found by the per-(day, shift) check is in the full validator
output. -/
lemma mem_verifier_violations_jour (es : List Employee) (planning : Planning)
    (v : Violation) (jour shift : String) (hj : jour ∈ joursSemaine)
    (hs : shift ∈ (["matin", "apres_midi"] : List String))
    (hv : v ∈ verifJourShift jour shift (planning jour shift)) :
    v ∈ verifier_violations es planning := by
  unfold verifier_violations
  refine List.mem_append.mpr (Or.inl ?_)
  refine List.mem_flatMap.mpr ⟨jour, hj, ?_⟩
  refine List.mem_append.mpr (Or.inl ?_)
  exact List.mem_flatMap.mpr ⟨shift, hs, hv⟩

/-- C2 (amended): with zero available concierges the requirement engine still
sets the weekday-morning concierge slot to 1 and the constraint set forces
every concierge-role employee's morning variable to 0; but the validator,
which unconditionally demands exactly one concierge on weekday mornings, does
report a concierge violation for any schedule with no concierge in that
slot. -/
theorem scenario_concierge_indisponible (es : List Employee)
    (ci co : String → Option Int) (x : String → String → String → Int)
    (jour : String) (hconc : conciergesDispo es = [])
    (hx : contraintesSatisfaites es (fun j => calculerBesoinsJour es ci co j) x)
    (hj : jour ∈ joursSemaine) (hw : jour ∉ (["Samedi", "Dimanche"] : List String)) :
    (calculerBesoinsJour es ci co jour).matin.concierge = 1
    ∧ sumOver (es.filter (fun e => e.role == "concierge"))
        (fun e => x e.prenom jour "matin") = 0
    ∧ ∀ planning : Planning,
        (planning jour "matin").filter (fun e => e.role == "concierge") = [] →
        Violation.conciergeObligatoire jour "matin" 0 ∈ verifier_violations es planning := by
  obtain ⟨hbin, hindispo, hcouv, hemp⟩ := hx
  refine ⟨?_, ?_, ?_⟩
  · simp only [calculerBesoinsJour]
    rw [if_pos hw]
  · refine sumOver_eq_zero _ _ ?_
    intro e he
    rw [List.mem_filter] at he
    obtain ⟨hees, hrole⟩ := he
    have hd : e.disponible = false := by
      cases hdc : e.disponible
      · rfl
      · exfalso
        have : e ∈ conciergesDispo es := by
          rw [conciergesDispo]
          exact List.mem_filter.mpr ⟨List.mem_filter.mpr ⟨hees, by simp [hdc]⟩, hrole⟩
        rw [hconc] at this
        simp at this
    exact hindispo e hees hd jour hj "matin" (by decide)
  · intro planning hpl
    refine mem_verifier_violations_jour es planning _ jour "matin" hj (by decide) ?_
    unfold verifJourShift
    refine List.mem_append.mpr (Or.inl (List.mem_append.mpr (Or.inl
      (List.mem_append.mpr (Or.inr ?_)))))
    rw [hpl, if_pos hw, if_pos ⟨rfl, by simp⟩]
    simp

/-- C2 counterexample: a roster with no concierge at all and the empty
schedule — the validator does report the weekday-morning concierge violation
that the claim says is absent. -/
theorem concierge_violation_cex :
    conciergesDispo [supTemoin] = []
    ∧ Violation.conciergeObligatoire "Lundi" "matin" 0
        ∈ verifier_violations [supTemoin] (fun _ _ => []) := by
  constructor
  · decide
  · decide

/-- A concrete unavailable concierge, for witness instantiations. -/
def conciergeIndispoTemoin : Employee :=
  { prenom := "Concierge"
    nom := "Principal"
    type_contrat := "temps_plein"
    jours_semaine := 5
    role := "concierge"
    contraintes_speciales := [("jours_off", "weekend")]
    competences := ["Conciergerie"]
    disponible := false
    motif_indisponibilite := "Maladie"
    jours_absence := 7
    jours_off_consecutifs := none }

/-- C2 witness: the amended scenario instantiated on a roster whose only
concierge is unavailable, with the zero assignment on Monday. -/
theorem scenario_concierge_indisponible_temoin :
    (calculerBesoinsJour [conciergeIndispoTemoin] (fun _ => none) (fun _ => none) "Lundi").matin.concierge = 1
    ∧ sumOver ([conciergeIndispoTemoin].filter (fun e => e.role == "concierge"))
        (fun e => (fun _ _ _ => (0 : Int)) e.prenom "Lundi" "matin") = 0 := by
  have h := scenario_concierge_indisponible [conciergeIndispoTemoin]
    (fun _ => none) (fun _ => none) (fun _ _ _ => 0) "Lundi" (by decide)
    (contraintes_triviales [conciergeIndispoTemoin]
      (fun e he => by rw [List.mem_singleton] at he; subst he; rfl)
      (fun j => calculerBesoinsJour [conciergeIndispoTemoin] (fun _ => none) (fun _ => none) j))
    (by decide) (by decide)
  exact ⟨h.1, h.2.1⟩

/-- C1 (amended): for a part-time-3-day employee with 2 absence days (so
`max_workable_days = 1`), the validator's contract-compliance check compares
worked days to the contracted 3 days, not to `max_workable_days`: it flags the
employee exactly when they work more than 3 distinct days; schedules assigning
them 2 or 3 days pass unflagged. -/
theorem contrat_verifie_jours_contractuels (es : List Employee) (emp : Employee)
    (planning : Planning) (h1 : emp ∈ es) (h2 : emp.type_contrat = "mi_temps_3j")
    (h3 : emp.jours_semaine = 3) (h4 : emp.jours_absence = 2)
    (h5 : emp.disponible = true) :
    emp.jours_travail_max_semaine = 1
    ∧ ((analyseEmploye planning emp).respect_contrat = false
        ↔ 3 < joursTravailles planning emp.prenom)
    ∧ (3 < joursTravailles planning emp.prenom →
        Violation.contratDepasse emp.prenom emp.nom (joursTravailles planning emp.prenom) 3
          ∈ verifier_violations es planning)
    ∧ (joursTravailles planning emp.prenom ≤ 3 → verifContrat emp planning = []) := by
  refine ⟨?_, ?_, ?_, ?_⟩
  · simp [Employee.jours_travail_max_semaine, h5, h4, h3]
  · simp only [analyseEmploye, h3, decide_eq_false_iff_not]
    omega
  · intro hjt
    unfold verifier_violations
    refine List.mem_append.mpr (Or.inr ?_)
    refine List.mem_flatMap.mpr ⟨emp, h1, ?_⟩
    unfold verifContrat
    rw [h3, if_pos (by exact_mod_cast hjt)]
    simp [h3]
  · intro hjt
    unfold verifContrat
    rw [if_neg (by omega)]

/-- The concrete part-time-3-day employee of Scenario E. -/
def recepPT2Temoin : Employee :=
  { prenom := "RecepPT2"
    nom := "Partiel3j"
    type_contrat := "mi_temps_3j"
    jours_semaine := 3
    role := "receptionniste"
    contraintes_speciales := []
    competences := ["Accueil"]
    disponible := true
    motif_indisponibilite := "Maladie"
    jours_absence := 2
    jours_off_consecutifs := none }

/-- A schedule assigning `RecepPT2` two morning shifts (Monday, Tuesday). -/
def planningDeuxJours : Planning := fun jour shift =>
  if shift = "matin" ∧ (jour = "Lundi" ∨ jour = "Mardi") then
    [{ prenom := "RecepPT2", nom := "Partiel3j", role := "receptionniste",
       type_contrat := "mi_temps_3j" }]
  else []

/-- A schedule assigning `RecepPT2` four morning shifts (Monday–Thursday). -/
def planningQuatreJours : Planning := fun jour shift =>
  if shift = "matin" ∧ (jour = "Lundi" ∨ jour = "Mardi" ∨ jour = "Mercredi" ∨ jour = "Jeudi") then
    [{ prenom := "RecepPT2", nom := "Partiel3j", role := "receptionniste",
       type_contrat := "mi_temps_3j" }]
  else []

/-- C1 counterexample: the Scenario E employee (`max_workable_days = 1`)
assigned shifts on 2 distinct days is NOT flagged: the compliance flag stays
true and the contract check emits no violation record. -/
theorem contrat_non_signale_cex :
    recepPT2Temoin.jours_travail_max_semaine = 1
    ∧ joursTravailles planningDeuxJours recepPT2Temoin.prenom = 2
    ∧ (analyseEmploye planningDeuxJours recepPT2Temoin).respect_contrat = true
    ∧ verifContrat recepPT2Temoin planningDeuxJours = []
    ∧ Violation.contratDepasse recepPT2Temoin.prenom recepPT2Temoin.nom 2 3
        ∉ verifier_violations [recepPT2Temoin] planningDeuxJours := by
  refine ⟨by decide, by decide, by decide, by decide, by decide⟩

/-- C1 witness: with 4 assigned days the amended theorem does flag the
employee. -/
theorem contrat_verifie_jours_contractuels_temoin :
    3 < joursTravailles planningQuatreJours recepPT2Temoin.prenom
    ∧ Violation.contratDepasse recepPT2Temoin.prenom recepPT2Temoin.nom
        (joursTravailles planningQuatreJours recepPT2Temoin.prenom) 3
        ∈ verifier_violations [recepPT2Temoin] planningQuatreJours :=
  ⟨by decide,
   (contrat_verifie_jours_contractuels [recepPT2Temoin] recepPT2Temoin planningQuatreJours
      (List.mem_singleton.mpr rfl) rfl rfl rfl rfl).2.2.1 (by decide)⟩

/-- C9 (amended): the core identifies employees by first name: decision
variables are shared between same-first-name employees, and the analyzer's
worked-days and hours agree for them; the compliance flag however is computed
against each record's own contracted days and agrees only when those
coincide. -/
theorem identification_par_prenom (e1 e2 : Employee) (planning : Planning)
    (h : e1.prenom = e2.prenom) :
    (∀ x : String → String → String → Int, ∀ jour shift,
        x e1.prenom jour shift = x e2.prenom jour shift)
    ∧ (analyseEmploye planning e1).jours_travailles
        = (analyseEmploye planning e2).jours_travailles
    ∧ (analyseEmploye planning e1).heures = (analyseEmploye planning e2).heures
    ∧ (e1.jours_semaine = e2.jours_semaine →
        (analyseEmploye planning e1).respect_contrat
          = (analyseEmploye planning e2).respect_contrat) := by
  refine ⟨fun x jour shift => by rw [h], ?_, ?_, ?_⟩
  · simp [analyseEmploye, h]
  · simp [analyseEmploye, h]
  · intro hjs
    simp [analyseEmploye, h, hjs]

/-- First of the two same-first-name staff members (full time, 5 days). -/
def alexTempsPlein : Employee :=
  { prenom := "Alex"
    nom := "Durand"
    type_contrat := "temps_plein"
    jours_semaine := 5
    role := "receptionniste"
    contraintes_speciales := []
    competences := ["Accueil"]
    disponible := true
    motif_indisponibilite := ""
    jours_absence := 0
    jours_off_consecutifs := none }

/-- Second staff member with the same first name but a 3-day contract. -/
def alexMiTemps : Employee :=
  { alexTempsPlein with nom := "Petit", type_contrat := "mi_temps_3j", jours_semaine := 3 }

/-- Third staff member with the same first name and the same contract as the
first. -/
def alexHomonyme : Employee :=
  { alexTempsPlein with nom := "Moreau" }

/-- A schedule in which the first name `Alex` works four mornings. -/
def planningAlex : Planning := fun jour shift =>
  if shift = "matin" ∧ (jour = "Lundi" ∨ jour = "Mardi" ∨ jour = "Mercredi" ∨ jour = "Jeudi") then
    [{ prenom := "Alex", nom := "Durand", role := "receptionniste",
       type_contrat := "temps_plein" }]
  else []

/-- C9 counterexample: two distinct staff members sharing the first name
`Alex` get identical worked-days (4 each) but different compliance flags
(5-day contract compliant, 3-day contract not), refuting "identical
worked-days, hours and compliance for both". -/
theorem homonymes_cex :
    alexTempsPlein.prenom = alexMiTemps.prenom
    ∧ alexTempsPlein ≠ alexMiTemps
    ∧ (analyseEmploye planningAlex alexTempsPlein).jours_travailles = 4
    ∧ (analyseEmploye planningAlex alexMiTemps).jours_travailles = 4
    ∧ (analyseEmploye planningAlex alexTempsPlein).respect_contrat = true
    ∧ (analyseEmploye planningAlex alexMiTemps).respect_contrat = false := by
  refine ⟨by decide, by decide, by decide, by decide, by decide, by decide⟩

/-- C9 witness: for two same-first-name employees with equal contracted days,
worked-days and the compliance flag agree. -/
theorem identification_par_prenom_temoin :
    (analyseEmploye planningAlex alexTempsPlein).jours_travailles
      = (analyseEmploye planningAlex alexHomonyme).jours_travailles
    ∧ (analyseEmploye planningAlex alexTempsPlein).respect_contrat
      = (analyseEmploye planningAlex alexHomonyme).respect_contrat :=
  ⟨(identification_par_prenom alexTempsPlein alexHomonyme planningAlex rfl).2.1,
   (identification_par_prenom alexTempsPlein alexHomonyme planningAlex rfl).2.2.2 rfl⟩

/-- C7 (amended): the requirement engine performs no input validation and
never aborts: a forecast always yields all 7 requirement rows, a missing day
is read as a count of 0, and a non-positive (e.g. negative) count is floored
by the `max(1, ·)` rule to a total of 1. -/
theorem besoins_sans_validation (es : List Employee) (ci co : String → Option Int)
    (jour : String) :
    (calculer_besoins_personnel es ci co).length = 7
    ∧ calculerBesoinsJour es (fun _ => none) co jour
        = calculerBesoinsJour es (fun _ => some 0) co jour
    ∧ ((co jour).getD 0 ≤ 0 →
        (calculerBesoinsJour es ci co jour).matin.total_personnel = 1)
    ∧ ((ci jour).getD 0 ≤ 0 →
        (calculerBesoinsJour es ci co jour).apres_midi.total_personnel = 1) := by
  refine ⟨rfl, rfl, ?_, ?_⟩
  · intro hle
    have h0 : ((co jour).getD 0 + (50 - 1)).fdiv 50 ≤ 0 := by
      rw [Int.fdiv_eq_ediv _ (by omega)]
      omega
    simp only [calculerBesoinsJour, clientsParReceptionniste, maxReceptionistsParShift]
    split_ifs <;> omega
  · intro hle
    have h0 : ((ci jour).getD 0 + (50 - 1)).fdiv 50 ≤ 0 := by
      rw [Int.fdiv_eq_ediv _ (by omega)]
      omega
    simp only [calculerBesoinsJour, clientsParReceptionniste, maxReceptionistsParShift]
    split_ifs <;> omega

/-- C7 counterexample: with every day missing from the forecast (and with a
negative count), `calculer_besoins_personnel` still computes a full
requirement table instead of rejecting the input — no `ConfigurationError`
path exists. -/
theorem validation_absente_cex :
    (calculer_besoins_personnel [] (fun _ => none) (fun _ => none)).length = 7
    ∧ (calculer_besoins_personnel [] (fun _ => none) (fun _ => none)).lookup "Lundi"
        = some
          { matin := { total_personnel := 1, min_superviseurs := 1, concierge := 1 }
            apres_midi := { total_personnel := 1, min_superviseurs := 1, concierge := 0 }
            nuit := { receptionists := 0, superviseurs := 0, concierge := 0 } }
    ∧ (calculerBesoinsJour [] (fun _ => none) (fun _ => some (-50)) "Lundi").matin.total_personnel = 1 := by
  refine ⟨by decide, by decide, by decide⟩

/-- C7 witness: the no-validation theorem instantiated on a negative Tuesday
forecast. -/
theorem besoins_sans_validation_temoin :
    ((fun _ => some (-50) : String → Option Int) "Mardi").getD 0 ≤ 0
    ∧ (calculerBesoinsJour [] (fun _ => some (-50)) (fun _ => some (-50)) "Mardi").matin.total_personnel = 1 :=
  ⟨by decide,
   (besoins_sans_validation [] (fun _ => some (-50)) (fun _ => some (-50)) "Mardi").2.2.1 (by decide)⟩

end HotelPlanning
